import Mathlib

/-!
Verification of the query-dispatch flow of the relation_engine_api repository
(`src/relation_engine_server/api_modules/api_v2.py`, function `run_query`).

The handler is embedded shallowly: the JSON body, query-string arguments and
auth header of an HTTP request become a `Request` structure; the external
collaborators that are not part of the source tree (the auth client, the spec
loader, the jinja2 renderer and the ArangoDB client) are modelled from the
spec's interface contracts as fields of an `Env`, plus an explicit database
cursor state `DbState`.  `run_query` returns the outcome, the list of database
calls issued, and the resulting database state, so that dispatch order,
bind-variable contents, batch sizes and call counts can all be stated directly.
-/

set_option autoImplicit false

namespace RelEngine

/-- JSON values appearing as bind variables / template variables.  The special
`ws_ids` bind variable is a list of workspace ids (`jintList`). -/
inductive JVal where
  | jnull : JVal
  | jbool : Bool → JVal
  | jint : Int → JVal
  | jstr : String → JVal
  | jintList : List Int → JVal
  deriving DecidableEq, Repr

/-- String-keyed association-list lookup, modelling Python `dict` access
(`d[k]` / `k in d`).  JSON objects carry no duplicate keys, so first-match
lookup is the dictionary semantics. -/
def lookupKey {β : Type} : List (String × β) → String → Option β
  | [], _ => none
  | (k', v) :: rest, k => if k' = k then some v else lookupKey rest k

/-- Python `d[k] = v` on an association list: replace the value at the first
occurrence of the key in place, or append the pair when the key is absent. -/
def dictSet {β : Type} : List (String × β) → String → β → List (String × β)
  | [], k, v => [(k, v)]
  | (k', v') :: rest, k, v =>
      if k' = k then (k, v) :: rest else (k', v') :: dictSet rest k v

/-- Remove every entry with the given key. -/
def removeKey {β : Type} : List (String × β) → String → List (String × β)
  | [], _ => []
  | (k', v) :: rest, k =>
      if k' = k then removeKey rest k else (k', v) :: removeKey rest k

/-- Documents returned by the database are opaque to this layer. -/
abbrev Doc := Nat

/-- The result-page shape the ArangoDB client returns for a query or a cursor
advance: the batch of results, the total match count, the has-more flag, and
the cursor id (null when the cursor is exhausted). -/
structure ResultPage where
  results : List Doc
  count : Nat
  has_more : Bool
  cursor_id : Option String
  deriving DecidableEq, Repr

/-- Server-side state of one live cursor: the documents not yet delivered, the
total match count and the batch size fixed when the query started. -/
structure CursorData where
  remaining : List Doc
  total : Nat
  batch : Nat
  deriving DecidableEq, Repr

/-- The database's cursor table plus a counter for fresh cursor ids.  The API
layer holds no cursor state itself; this models the backing database. -/
structure DbState where
  cursors : List (String × CursorData)
  nextId : Nat
  deriving DecidableEq, Repr

/-- One call issued to the ArangoDB client: either starting a new query (with
query text, bind variables and batch size) or advancing an existing cursor
(carrying nothing but the cursor id). -/
inductive DbCall where
  | newQuery : String → List (String × JVal) → Int → DbCall
  | advanceCursor : String → DbCall
  deriving DecidableEq, Repr

/-- Failures raised by the auth client before any database call. -/
inductive RunErr where
  | authError : RunErr
  | permissionError : RunErr
  deriving DecidableEq, Repr

/-- The observable outcome of one `run_query` request, after the boundary
converts exceptions into structured error responses:
* `success` — a result page;
* `invalidParameters` — the `InvalidParameters` exception with its message;
* `authError` / `permissionError` — auth failures surfaced at transport level;
* `notFoundView` — the structured body `{"error": <msg>, "name": <view>}`;
* `cursorNotFound` — the structured body carrying the upstream
  `arango_message`;
* `valueError` — an uncaught Python `ValueError` (no structured response). -/
inductive Outcome where
  | success : ResultPage → Outcome
  | invalidParameters : String → Outcome
  | authError : Outcome
  | permissionError : Outcome
  | notFoundView : String → String → Outcome
  | cursorNotFound : String → Outcome
  | valueError : Outcome
  deriving DecidableEq, Repr

/-- Whether the outcome is a success page. -/
def Outcome.isSuccess : Outcome → Bool
  | Outcome.success _ => true
  | _ => false

/-- What one execution of `run_query` did: its outcome, the database calls it
issued (in order), and the database state afterwards. -/
structure RunResult where
  outcome : Outcome
  calls : List DbCall
  db : DbState
  deriving DecidableEq, Repr

/-- Modelled from the spec: the auth service behind
`relation_engine_server/utils/auth.py` (not under `src/`).  A token is either
valid — carrying a set of workspace ids and a set of roles — or rejected. -/
structure AuthDb where
  validTokens : List String
  wsIds : String → List Int
  roles : String → List String

/-- Modelled from the spec: `auth.get_workspace_ids` (§4.1).  An absent token
yields the empty id sequence (no access, not an error); a rejected token fails
with AuthError; a valid token resolves to its authorized workspace ids. -/
def get_workspace_ids (a : AuthDb) : Option String → Except RunErr (List Int)
  | none => Except.ok []
  | some t =>
      if a.validTokens.contains t then Except.ok (a.wsIds t)
      else Except.error RunErr.authError

/-- Modelled from the spec: `auth.require_auth_token` (§4.1).  A missing or
rejected token fails with AuthError; a valid token lacking one of the required
roles fails with PermissionError. -/
def require_auth_token (a : AuthDb) (required : List String)
    (token : Option String) : Except RunErr Unit :=
  match token with
  | none => Except.error RunErr.authError
  | some t =>
      if a.validTokens.contains t then
        if required.all (fun r => (a.roles t).contains r) then Except.ok ()
        else Except.error RunErr.permissionError
      else Except.error RunErr.authError

/-- External collaborators of the handler, modelled from the spec's interface
contracts: the auth service, the spec repository (view name → template
source, behind `spec_loader.get_view`), the jinja2 template renderer, and the
database's query executor (query text + bind vars → matching documents). -/
structure Env where
  auth : AuthDb
  views : List (String × String)
  render : String → List (String × JVal) → String
  execQuery : String → List (String × JVal) → List Doc

/-- Digits-only base-10 value of a character list, `none` when empty or when a
non-digit appears. -/
def digitsVal (cs : List Char) : Option Nat :=
  if cs.isEmpty then none
  else if cs.all Char.isDigit then
    some (cs.foldl (fun acc c => acc * 10 + (c.toNat - 48)) 0)
  else none

/-- Surrounding-whitespace strip on a character list (Python `str.strip`). -/
def pyStrip (cs : List Char) : List Char :=
  ((cs.dropWhile Char.isWhitespace).reverse.dropWhile Char.isWhitespace).reverse

/-- Python `int(s)` on a string: strip surrounding whitespace, allow one
leading sign, then base-10 digits; anything else raises `ValueError`,
modelled as `none`. -/
def pyInt (s : String) : Option Int :=
  match pyStrip s.toList with
  | '-' :: rest => (digitsVal rest).map (fun n => -(n : Int))
  | '+' :: rest => (digitsVal rest).map (fun n => (n : Int))
  | cs => (digitsVal cs).map (fun n => (n : Int))

/-- Batch size from the query string, `int(flask.request.args.get(..., 100))`:
the integer default 100 when the batch_size parameter is absent, otherwise the
unguarded `int` conversion of the supplied string. -/
def parseBatchSize : Option String → Option Int
  | none => some 100
  | some s => pyInt s

/-- Modelled from the spec: `arango_client.run_query(query_text=..., bind_vars=...,
batch_size=...)` (§4.4, not under `src/`).  The database evaluates the query,
returns the first batch and the total count; when more results remain it
registers a fresh cursor and reports `has_more` with its id, otherwise it
reports `has_more = false` with a null cursor id. -/
def new_query (env : Env) (db : DbState) (query_text : String)
    (bind_vars : List (String × JVal)) (batch_size : Int) :
    ResultPage × DbState :=
  let results := env.execQuery query_text bind_vars
  let firstPage := results.take batch_size.toNat
  let rest := results.drop batch_size.toNat
  if rest.isEmpty then
    (⟨firstPage, results.length, false, none⟩, db)
  else
    let cid := "cursor_" ++ toString db.nextId
    (⟨firstPage, results.length, true, some cid⟩,
     ⟨dictSet db.cursors cid ⟨rest, results.length, batch_size.toNat⟩,
      db.nextId + 1⟩)

/-- Modelled from the spec: `arango_client.run_query(cursor_id=...)` (§4.4,
not under `src/`).  An unknown or exhausted cursor id fails with the upstream
detail "cursor not found"; a live cursor yields its next batch, and once the
final batch is delivered (`has_more = false`, null cursor id) the cursor is
removed so it can never be resolved again. -/
def advance_cursor (db : DbState) (cursor_id : String) :
    Except String (ResultPage × DbState) :=
  match lookupKey db.cursors cursor_id with
  | none => Except.error "cursor not found"
  | some cd =>
      let page := cd.remaining.take cd.batch
      let rest := cd.remaining.drop cd.batch
      if rest.isEmpty then
        Except.ok (⟨page, cd.total, false, none⟩,
                   ⟨removeKey db.cursors cursor_id, db.nextId⟩)
      else
        Except.ok (⟨page, cd.total, true, some cursor_id⟩,
                   ⟨dictSet db.cursors cursor_id ⟨rest, cd.total, cd.batch⟩,
                    db.nextId⟩)

/-- One HTTP request to `POST query_results`: the JSON body fields (`query`,
`bind_vars`, `template_vars` — with missing `bind_vars` defaulted to the
empty dict), the query-string arguments `view`, `cursor_id` and `batch_size`
(kept as the raw string), and the bearer token from the auth header. -/
structure Request where
  body_query : Option String := none
  bind_vars : List (String × JVal) := []
  template_vars : List (String × JVal) := []
  arg_view : Option String := none
  arg_cursor_id : Option String := none
  arg_batch_size : Option String := none
  auth_token : Option String := none
  deriving DecidableEq, Repr

/-- Auth failures short-circuit to a transport-level error status. -/
def errToOutcome : RunErr → Outcome
  | RunErr.authError => Outcome.authError
  | RunErr.permissionError => Outcome.permissionError

/-- The branch chain of `run_query` after bind-variable assembly, auth
resolution and batch-size parsing (`api_v2.py` lines 27–51):
if the body has a `query` key (admin ad-hoc, role-gated), else
if the query string has a `view` key (resolve, render, execute), else
if the query string has a `cursor_id` key (advance cursor), else
raise `InvalidParameters` with message "Pass in a view or a cursor_id". -/
def dispatch (env : Env) (db : DbState)
    (body_query arg_view arg_cursor_id : Option String)
    (template_vars : List (String × JVal)) (auth_token : Option String)
    (bind_vars : List (String × JVal)) (batch_size : Int) : RunResult :=
  match body_query with
  | some query_text =>
      match require_auth_token env.auth ["RE_ADMIN"] auth_token with
      | Except.error e => ⟨errToOutcome e, [], db⟩
      | Except.ok _ =>
          let r := new_query env db query_text bind_vars batch_size
          ⟨Outcome.success r.1, [DbCall.newQuery query_text bind_vars batch_size], r.2⟩
  | none =>
  match arg_view with
  | some view_name =>
      match lookupKey env.views view_name with
      | none => ⟨Outcome.notFoundView "View does not exist." view_name, [], db⟩
      | some view_str =>
          let compiled := env.render view_str template_vars
          let r := new_query env db compiled bind_vars batch_size
          ⟨Outcome.success r.1, [DbCall.newQuery compiled bind_vars batch_size], r.2⟩
  | none =>
  match arg_cursor_id with
  | some cursor_id =>
      match advance_cursor db cursor_id with
      | Except.error msg =>
          ⟨Outcome.cursorNotFound msg, [DbCall.advanceCursor cursor_id], db⟩
      | Except.ok r =>
          ⟨Outcome.success r.1, [DbCall.advanceCursor cursor_id], r.2⟩
  | none => ⟨Outcome.invalidParameters "Pass in a view or a cursor_id", [], db⟩

/-- The `run_query` handler (`api_v2.py` lines 10–51).  In source order:
default `bind_vars` to the empty dict; set the `ws_ids` entry of `bind_vars`
to `[]` so the caller can never set the special field; resolve the auth
header to workspace ids and overwrite the `ws_ids` entry with them; parse
`batch_size` (default 100); then dispatch on the request shape. -/
def run_query (env : Env) (db : DbState) (req : Request) : RunResult :=
  let bv1 := dictSet req.bind_vars "ws_ids" (JVal.jintList [])
  match get_workspace_ids env.auth req.auth_token with
  | Except.error e => ⟨errToOutcome e, [], db⟩
  | Except.ok ws_ids =>
      let bv2 := dictSet bv1 "ws_ids" (JVal.jintList ws_ids)
      match parseBatchSize req.arg_batch_size with
      | none => ⟨Outcome.valueError, [], db⟩
      | some batch_size =>
          dispatch env db req.body_query req.arg_view req.arg_cursor_id
            req.template_vars req.auth_token bv2 batch_size

/-! ### Association-list lemmas -/

theorem lookupKey_dictSet_self {β : Type} (m : List (String × β)) (k : String) (v : β) :
    lookupKey (dictSet m k v) k = some v := by
  induction m with
  | nil => simp [dictSet, lookupKey]
  | cons p rest ih =>
      by_cases h : p.1 = k
      · simp [dictSet, lookupKey, h]
      · simp [dictSet, lookupKey, h, ih]

theorem dictSet_dictSet {β : Type} (m : List (String × β)) (k : String) (v w : β) :
    dictSet (dictSet m k v) k w = dictSet m k w := by
  induction m with
  | nil => simp [dictSet]
  | cons p rest ih =>
      by_cases h : p.1 = k
      · simp [dictSet, h]
      · simp [dictSet, h, ih]

theorem lookupKey_removeKey_self {β : Type} (m : List (String × β)) (k : String) :
    lookupKey (removeKey m k) k = none := by
  induction m with
  | nil => simp [removeKey, lookupKey]
  | cons p rest ih =>
      by_cases h : p.1 = k
      · simp [removeKey, h, ih]
      · simp [removeKey, lookupKey, h, ih]

theorem isSuccess_errToOutcome (e : RunErr) : (errToOutcome e).isSuccess = false := by
  cases e <;> rfl

/-! ### Shape lemmas for `run_query` -/

/-- When the auth resolution and the batch-size conversion both succeed,
`run_query` is the dispatch chain applied to the server-assembled bind
variables (caller value under `ws_ids` first zeroed, then overwritten with the
resolved ids). -/
theorem run_query_eq (env : Env) (db : DbState) (req : Request)
    (ids : List Int) (bs : Int)
    (hws : get_workspace_ids env.auth req.auth_token = Except.ok ids)
    (hbs : parseBatchSize req.arg_batch_size = some bs) :
    run_query env db req =
      dispatch env db req.body_query req.arg_view req.arg_cursor_id
        req.template_vars req.auth_token
        (dictSet (dictSet req.bind_vars "ws_ids" (JVal.jintList []))
          "ws_ids" (JVal.jintList ids)) bs := by
  unfold run_query
  rw [hws, hbs]

/-- Every `newQuery` call issued by `run_query` carries exactly the parsed
batch size and exactly the server-assembled bind variables. -/
theorem run_query_calls_shape (env : Env) (db : DbState) (req : Request)
    (ids : List Int) (bs : Int)
    (hws : get_workspace_ids env.auth req.auth_token = Except.ok ids)
    (hbs : parseBatchSize req.arg_batch_size = some bs) :
    ∀ q bv b, DbCall.newQuery q bv b ∈ (run_query env db req).calls →
      b = bs ∧
      bv = dictSet (dictSet req.bind_vars "ws_ids" (JVal.jintList []))
            "ws_ids" (JVal.jintList ids) := by
  intro q bv b hmem
  rw [run_query_eq env db req ids bs hws hbs] at hmem
  unfold dispatch at hmem
  split at hmem
  · split at hmem
    · simp at hmem
    · simp at hmem
      exact ⟨hmem.2.2, hmem.2.1⟩
  · split at hmem
    · split at hmem
      · simp at hmem
      · simp at hmem
        exact ⟨hmem.2.2, hmem.2.1⟩
    · split at hmem
      · split at hmem <;> simp at hmem
      · simp at hmem

/-- Once `advance_cursor` reports a page with `has_more = false`, the cursor
id no longer resolves in the resulting state. -/
theorem advance_cursor_exhausted (db : DbState) (c : String)
    (p : ResultPage) (db' : DbState)
    (h : advance_cursor db c = Except.ok (p, db'))
    (hm : p.has_more = false) :
    lookupKey db'.cursors c = none := by
  unfold advance_cursor at h
  cases hl : lookupKey db.cursors c with
  | none => rw [hl] at h; simp at h
  | some cd =>
      rw [hl] at h
      by_cases he : (cd.remaining.drop cd.batch).isEmpty
      · simp only [he, if_true] at h
        have hdb : db' = ⟨removeKey db.cursors c, db.nextId⟩ := by
          cases h; rfl
        rw [hdb]
        exact lookupKey_removeKey_self db.cursors c
      · simp only [he, if_false] at h
        have hp : p = ⟨cd.remaining.take cd.batch, cd.total, true, some c⟩ := by
          cases h; rfl
        rw [hp] at hm
        simp at hm

/-! ### Concrete fixtures mirroring the integration-test setup
(`src/test/test_api_v2.py`): an admin token with role RE_ADMIN, a plain valid
token, one stored view, and a three-document collection. -/

def testAuth : AuthDb where
  validTokens := ["admin_token", "valid_token"]
  wsIds := fun t =>
    if t = "admin_token" then [99] else if t = "valid_token" then [3] else []
  roles := fun t => if t = "admin_token" then ["RE_ADMIN"] else []

def testEnv : Env where
  auth := testAuth
  views := [("list_test_vertices", "for o in test_vertex return o")]
  render := fun tmpl _ => tmpl
  execQuery := fun _ _ => [0, 1, 2]

def dbEmpty : DbState := ⟨[], 0⟩

/-- A view request whose caller tries to smuggle a `ws_ids` bind variable. -/
def reqViewTok : Request :=
  { bind_vars := [("ws_ids", JVal.jintList [42])]
    arg_view := some "list_test_vertices"
    auth_token := some "valid_token" }

/-- An admin ad-hoc request that also tries to supply its own `ws_ids`. -/
def reqAdminCE : Request :=
  { body_query := some "q"
    bind_vars := [("ws_ids", JVal.jintList [42])]
    auth_token := some "admin_token" }

/-- A request supplying none of `query`, `view`, `cursor_id`. -/
def reqNone : Request := {}

/-- A request supplying all three selectors at once. -/
def reqAllThree : Request :=
  { body_query := some "q"
    arg_view := some "list_test_vertices"
    arg_cursor_id := some "cursor_0"
    auth_token := some "admin_token" }

/-! ### Claim theorems -/

/-- C1: on every non-administrative path (no `query` in the body), each
database call that carries bind variables has `ws_ids` equal to the Auth
Gateway's resolution of the caller's token, and the caller-supplied value
under `ws_ids` is discarded: replacing it by anything leaves the whole
execution unchanged. -/
theorem run_query_ws_ids_server_assigned (env : Env) (db : DbState)
    (req : Request) (ids : List Int) (bs : Int)
    (_hq : req.body_query = none)
    (hws : get_workspace_ids env.auth req.auth_token = Except.ok ids)
    (hbs : parseBatchSize req.arg_batch_size = some bs) :
    (∀ q bv b, DbCall.newQuery q bv b ∈ (run_query env db req).calls →
        lookupKey bv "ws_ids" = some (JVal.jintList ids)) ∧
    (∀ v, run_query env db req =
        run_query env db { req with bind_vars := dictSet req.bind_vars "ws_ids" v }) := by
  constructor
  · intro q bv b hmem
    obtain ⟨-, hbv⟩ := run_query_calls_shape env db req ids bs hws hbs q bv b hmem
    rw [hbv]
    exact lookupKey_dictSet_self _ _ _
  · intro v
    rw [run_query_eq env db req ids bs hws hbs,
        run_query_eq env db { req with bind_vars := dictSet req.bind_vars "ws_ids" v }
          ids bs hws hbs]
    simp only [dictSet_dictSet]

/-- C1 witness: the caller of `reqViewTok` supplied `ws_ids = [42]`, yet the
database call carries `ws_ids = [3]`, the Auth Gateway's resolution of
`valid_token`. -/
theorem run_query_ws_ids_server_assigned_witness :
    lookupKey reqViewTok.bind_vars "ws_ids" = some (JVal.jintList [42]) ∧
    (∀ q bv b, DbCall.newQuery q bv b ∈ (run_query testEnv dbEmpty reqViewTok).calls →
        lookupKey bv "ws_ids" = some (JVal.jintList [3])) :=
  ⟨rfl,
   (run_query_ws_ids_server_assigned testEnv dbEmpty reqViewTok [3] 100
      rfl rfl rfl).1⟩

/-- C2 counterexample: an administrative ad-hoc request supplying its own
`ws_ids = [42]` does not reach the database unchanged — the call carries
`ws_ids = [99]`, the Auth Gateway's resolution of the admin's token, because
the overwrite at `api_v2.py` lines 21/24 runs before the admin branch. -/
theorem run_query_admin_ws_ids_counterexample :
    lookupKey reqAdminCE.bind_vars "ws_ids" = some (JVal.jintList [42]) ∧
    (run_query testEnv dbEmpty reqAdminCE).calls =
      [DbCall.newQuery "q" [("ws_ids", JVal.jintList [99])] 100] ∧
    JVal.jintList [99] ≠ JVal.jintList [42] := by
  refine ⟨rfl, rfl, by decide⟩

/-- C2 amended: the `ws_ids` overwrite is applied on the raw administrative
path exactly as on every other path — each database call of an admin ad-hoc
request carries the Auth Gateway's resolution, and the admin's own value
under `ws_ids` is discarded. -/
theorem run_query_admin_ws_ids_overwritten (env : Env) (db : DbState)
    (req : Request) (q : String) (ids : List Int) (bs : Int)
    (_hq : req.body_query = some q)
    (hws : get_workspace_ids env.auth req.auth_token = Except.ok ids)
    (hbs : parseBatchSize req.arg_batch_size = some bs) :
    (∀ qt bv b, DbCall.newQuery qt bv b ∈ (run_query env db req).calls →
        lookupKey bv "ws_ids" = some (JVal.jintList ids)) ∧
    (∀ v, run_query env db req =
        run_query env db { req with bind_vars := dictSet req.bind_vars "ws_ids" v }) := by
  constructor
  · intro qt bv b hmem
    obtain ⟨-, hbv⟩ := run_query_calls_shape env db req ids bs hws hbs qt bv b hmem
    rw [hbv]
    exact lookupKey_dictSet_self _ _ _
  · intro v
    rw [run_query_eq env db req ids bs hws hbs,
        run_query_eq env db { req with bind_vars := dictSet req.bind_vars "ws_ids" v }
          ids bs hws hbs]
    simp only [dictSet_dictSet]

/-- C2 amended witness: the admin database call carries `ws_ids = [99]` from
the admin token, and replacing the caller-supplied `ws_ids` value changes
nothing about the execution. -/
theorem run_query_admin_ws_ids_overwritten_witness :
    lookupKey [("ws_ids", JVal.jintList [99])] "ws_ids" =
      some (JVal.jintList [99]) ∧
    run_query testEnv dbEmpty reqAdminCE =
      run_query testEnv dbEmpty
        { reqAdminCE with
            bind_vars := dictSet reqAdminCE.bind_vars "ws_ids" (JVal.jintList [777]) } :=
  ⟨(run_query_admin_ws_ids_overwritten testEnv dbEmpty reqAdminCE "q" [99] 100
      rfl rfl rfl).1 "q" [("ws_ids", JVal.jintList [99])] 100 (by decide),
   (run_query_admin_ws_ids_overwritten testEnv dbEmpty reqAdminCE "q" [99] 100
      rfl rfl rfl).2 (JVal.jintList [777])⟩

/-- C9: when the `batch_size` query-string parameter is absent every new-query
database call uses batch size 100; when it is supplied as an integer string,
every new-query call uses that value. -/
theorem run_query_batch_size_default_and_override (env : Env) (db : DbState)
    (req : Request) (ids : List Int)
    (hws : get_workspace_ids env.auth req.auth_token = Except.ok ids) :
    (req.arg_batch_size = none →
      ∀ q bv b, DbCall.newQuery q bv b ∈ (run_query env db req).calls → b = 100) ∧
    (∀ s n, req.arg_batch_size = some s → pyInt s = some n →
      ∀ q bv b, DbCall.newQuery q bv b ∈ (run_query env db req).calls → b = n) := by
  constructor
  · intro h0 q bv b hmem
    have hbs : parseBatchSize req.arg_batch_size = some 100 := by rw [h0]; rfl
    exact (run_query_calls_shape env db req ids 100 hws hbs q bv b hmem).1
  · intro s n hs hn q bv b hmem
    have hbs : parseBatchSize req.arg_batch_size = some n := by rw [hs]; exact hn
    exact (run_query_calls_shape env db req ids n hws hbs q bv b hmem).1

/-- C9 witness: omitting `batch_size` on a view request yields a database
call with batch size 100; supplying `"10"` yields batch size 10. -/
theorem run_query_batch_size_default_and_override_witness :
    (∀ q bv b, DbCall.newQuery q bv b ∈ (run_query testEnv dbEmpty reqViewTok).calls →
        b = 100) ∧
    (∀ q bv b, DbCall.newQuery q bv b ∈
        (run_query testEnv dbEmpty { reqViewTok with arg_batch_size := some "10" }).calls →
        b = 10) :=
  ⟨(run_query_batch_size_default_and_override testEnv dbEmpty reqViewTok [3] rfl).1 rfl,
   (run_query_batch_size_default_and_override testEnv dbEmpty
      { reqViewTok with arg_batch_size := some "10" } [3] rfl).2 "10" 10 rfl rfl⟩

/-- C10: a present but unparseable `batch_size` makes `run_query` fail with
the uncaught `ValueError` from the unguarded `int(...)` conversion, before
any dispatch branch runs: no database call is issued, the database state is
unchanged, and neither the default of 100 nor an `InvalidParameters` response
is produced. -/
theorem run_query_bad_batch_size_value_error (env : Env) (db : DbState)
    (req : Request) (s : String) (ids : List Int)
    (hws : get_workspace_ids env.auth req.auth_token = Except.ok ids)
    (hs : req.arg_batch_size = some s)
    (hbad : pyInt s = none) :
    (run_query env db req).outcome = Outcome.valueError ∧
    (run_query env db req).calls = [] ∧
    (run_query env db req).db = db := by
  have hbs : parseBatchSize req.arg_batch_size = none := by rw [hs]; exact hbad
  unfold run_query
  rw [hws, hbs]
  exact ⟨rfl, rfl, rfl⟩

/-- C10 witness: `batch_size = "4.5"` (unparseable) on a request that even
includes a view name raises the ValueError with no database call. -/
theorem run_query_bad_batch_size_value_error_witness :
    (run_query testEnv dbEmpty { reqViewTok with arg_batch_size := some "4.5" }).outcome =
      Outcome.valueError ∧
    (run_query testEnv dbEmpty { reqViewTok with arg_batch_size := some "4.5" }).calls = [] ∧
    (run_query testEnv dbEmpty { reqViewTok with arg_batch_size := some "4.5" }).db = dbEmpty :=
  run_query_bad_batch_size_value_error testEnv dbEmpty
    { reqViewTok with arg_batch_size := some "4.5" } "4.5" [3] rfl rfl rfl

/-- On the cursor-continuation branch the only database call is the cursor
advance, whatever the outcome of the advance. -/
theorem run_query_cursor_calls (env : Env) (db : DbState) (r : Request)
    (c : String) (ids : List Int) (bs : Int)
    (hq : r.body_query = none) (hv : r.arg_view = none)
    (hc : r.arg_cursor_id = some c)
    (hws : get_workspace_ids env.auth r.auth_token = Except.ok ids)
    (hbs : parseBatchSize r.arg_batch_size = some bs) :
    (run_query env db r).calls = [DbCall.advanceCursor c] := by
  rw [run_query_eq env db r ids bs hws hbs]
  unfold dispatch
  simp only [hq, hv, hc]
  cases hadv : advance_cursor db c with
  | error m => rfl
  | ok pr => rfl

/-- C3: request-shape selection follows the fixed order of `run_query`:
a body `query` is executed regardless of any `view` or `cursor_id` parameter;
otherwise a `view` parameter is used regardless of any `cursor_id`; otherwise
a `cursor_id` yields exactly the cursor-advance database call; otherwise the
request fails with `InvalidParameters ("Pass in a view or a cursor_id")`. -/
theorem run_query_selection_order (env : Env) (db : DbState) (req : Request) :
    (req.body_query.isSome = true →
      run_query env db req =
        run_query env db { req with arg_view := none, arg_cursor_id := none }) ∧
    (req.body_query = none → req.arg_view.isSome = true →
      run_query env db req = run_query env db { req with arg_cursor_id := none }) ∧
    (∀ c ids bs, req.body_query = none → req.arg_view = none →
      req.arg_cursor_id = some c →
      get_workspace_ids env.auth req.auth_token = Except.ok ids →
      parseBatchSize req.arg_batch_size = some bs →
      (run_query env db req).calls = [DbCall.advanceCursor c]) ∧
    (∀ ids bs, req.body_query = none → req.arg_view = none →
      req.arg_cursor_id = none →
      get_workspace_ids env.auth req.auth_token = Except.ok ids →
      parseBatchSize req.arg_batch_size = some bs →
      (run_query env db req).outcome =
        Outcome.invalidParameters "Pass in a view or a cursor_id") := by
  refine ⟨?_, ?_, ?_, ?_⟩
  · intro hq
    obtain ⟨q, hq⟩ := Option.isSome_iff_exists.mp hq
    unfold run_query dispatch
    simp only [hq]
  · intro hq hv
    obtain ⟨v, hv⟩ := Option.isSome_iff_exists.mp hv
    unfold run_query dispatch
    simp only [hq, hv]
  · intro c ids bs hq hv hc hws hbs
    exact run_query_cursor_calls env db req c ids bs hq hv hc hws hbs
  · intro ids bs hq hv hc hws hbs
    rw [run_query_eq env db req ids bs hws hbs]
    unfold dispatch
    simp only [hq, hv, hc]

/-- C3 witness: with all three selectors supplied the `view` and `cursor_id`
parameters are ignored, and with none supplied the outcome is the
InvalidParameters message. -/
theorem run_query_selection_order_witness :
    run_query testEnv dbEmpty reqAllThree =
      run_query testEnv dbEmpty
        { reqAllThree with arg_view := none, arg_cursor_id := none } ∧
    (run_query testEnv dbEmpty reqNone).outcome =
      Outcome.invalidParameters "Pass in a view or a cursor_id" :=
  ⟨(run_query_selection_order testEnv dbEmpty reqAllThree).1 rfl,
   (run_query_selection_order testEnv dbEmpty reqNone).2.2.2 [] 100
     rfl rfl rfl rfl rfl⟩

/-- C8: every execution of `run_query` issues at most one database call, and
every successful execution issues exactly one. -/
theorem run_query_single_db_call (env : Env) (db : DbState) (req : Request) :
    (run_query env db req).calls.length ≤ 1 ∧
    ((run_query env db req).outcome.isSuccess = true →
      (run_query env db req).calls.length = 1) := by
  unfold run_query dispatch
  repeat' split
  all_goals try simp [Outcome.isSuccess]
  all_goals rename_i e heq
  all_goals cases e <;> rfl

/-- C8 witness: a successful view query issues exactly one database call. -/
theorem run_query_single_db_call_witness :
    (run_query testEnv dbEmpty reqViewTok).calls.length = 1 :=
  (run_query_single_db_call testEnv dbEmpty reqViewTok).2 rfl

/-- C4: an ad-hoc `query` request from a caller whose valid token lacks the
RE_ADMIN role fails with PermissionError whatever the query text, with no
database call attempted and the database state unchanged. -/
theorem run_query_adhoc_requires_admin (env : Env) (db : DbState)
    (req : Request) (q t : String) (bs : Int)
    (hq : req.body_query = some q)
    (ht : req.auth_token = some t)
    (hvalid : env.auth.validTokens.contains t = true)
    (hrole : (env.auth.roles t).contains "RE_ADMIN" = false)
    (hbs : parseBatchSize req.arg_batch_size = some bs) :
    (run_query env db req).outcome = Outcome.permissionError ∧
    (run_query env db req).calls = [] ∧
    (run_query env db req).db = db := by
  have hws : get_workspace_ids env.auth req.auth_token =
      Except.ok (env.auth.wsIds t) := by
    rw [ht]; unfold get_workspace_ids; simp only [hvalid]; rfl
  have hperm : require_auth_token env.auth ["RE_ADMIN"] req.auth_token =
      Except.error RunErr.permissionError := by
    rw [ht]; unfold require_auth_token
    simp only [hvalid, List.all_cons, List.all_nil, hrole]; rfl
  rw [run_query_eq env db req (env.auth.wsIds t) bs hws hbs]
  unfold dispatch
  simp only [hq, hperm]
  simp [errToOutcome]

/-- C4 witness: `valid_token` lacks RE_ADMIN, so its ad-hoc query request
fails with PermissionError and issues no database call. -/
theorem run_query_adhoc_requires_admin_witness :
    (run_query testEnv dbEmpty
        { body_query := some "for o in test_vertex return o",
          auth_token := some "valid_token" }).outcome = Outcome.permissionError ∧
    (run_query testEnv dbEmpty
        { body_query := some "for o in test_vertex return o",
          auth_token := some "valid_token" }).calls = [] ∧
    (run_query testEnv dbEmpty
        { body_query := some "for o in test_vertex return o",
          auth_token := some "valid_token" }).db = dbEmpty :=
  run_query_adhoc_requires_admin testEnv dbEmpty
    { body_query := some "for o in test_vertex return o",
      auth_token := some "valid_token" }
    "for o in test_vertex return o" "valid_token" 100 rfl rfl rfl rfl rfl

/-- C6: naming a view absent from the spec repository yields the structured
error payload `{"error": "View does not exist.", "name": <requested-name>}`
echoing the requested name, with no database call. -/
theorem run_query_unknown_view_structured_error (env : Env) (db : DbState)
    (req : Request) (v : String) (ids : List Int) (bs : Int)
    (hq : req.body_query = none)
    (hv : req.arg_view = some v)
    (hmiss : lookupKey env.views v = none)
    (hws : get_workspace_ids env.auth req.auth_token = Except.ok ids)
    (hbs : parseBatchSize req.arg_batch_size = some bs) :
    (run_query env db req).outcome = Outcome.notFoundView "View does not exist." v ∧
    (run_query env db req).calls = [] := by
  rw [run_query_eq env db req ids bs hws hbs]
  unfold dispatch
  simp only [hq, hv, hmiss]
  simp

/-- C6 witness: requesting the view "nonexistent" yields the structured
not-found payload echoing that name. -/
theorem run_query_unknown_view_structured_error_witness :
    (run_query testEnv dbEmpty { arg_view := some "nonexistent" }).outcome =
      Outcome.notFoundView "View does not exist." "nonexistent" ∧
    (run_query testEnv dbEmpty { arg_view := some "nonexistent" }).calls = [] :=
  run_query_unknown_view_structured_error testEnv dbEmpty
    { arg_view := some "nonexistent" } "nonexistent" [] 100 rfl rfl rfl rfl rfl

/-- C7: on the cursor-continuation path the database call carries nothing but
the cursor id: two requests with the same `cursor_id` and arbitrary (possibly
different) `bind_vars`, tokens and batch sizes issue the identical call. -/
theorem run_query_cursor_call_depends_only_on_cursor_id (env : Env)
    (db : DbState) (r1 r2 : Request) (c : String)
    (ids1 ids2 : List Int) (bs1 bs2 : Int)
    (h1q : r1.body_query = none) (h1v : r1.arg_view = none)
    (h1c : r1.arg_cursor_id = some c)
    (hws1 : get_workspace_ids env.auth r1.auth_token = Except.ok ids1)
    (hbs1 : parseBatchSize r1.arg_batch_size = some bs1)
    (h2q : r2.body_query = none) (h2v : r2.arg_view = none)
    (h2c : r2.arg_cursor_id = some c)
    (hws2 : get_workspace_ids env.auth r2.auth_token = Except.ok ids2)
    (hbs2 : parseBatchSize r2.arg_batch_size = some bs2) :
    (run_query env db r1).calls = [DbCall.advanceCursor c] ∧
    (run_query env db r1).calls = (run_query env db r2).calls := by
  have e1 := run_query_cursor_calls env db r1 c ids1 bs1 h1q h1v h1c hws1 hbs1
  have e2 := run_query_cursor_calls env db r2 c ids2 bs2 h2q h2v h2c hws2 hbs2
  exact ⟨e1, by rw [e1, e2]⟩

/-- C7 witness: two cursor requests for "cursor_0" with different bind
variables issue the identical cursor-advance call. -/
theorem run_query_cursor_call_depends_only_on_cursor_id_witness :
    (run_query testEnv dbEmpty { arg_cursor_id := some "cursor_0" }).calls =
      [DbCall.advanceCursor "cursor_0"] ∧
    (run_query testEnv dbEmpty { arg_cursor_id := some "cursor_0" }).calls =
      (run_query testEnv dbEmpty
        { arg_cursor_id := some "cursor_0",
          bind_vars := [("ws_ids", JVal.jintList [42]), ("x", JVal.jint 1)] }).calls :=
  run_query_cursor_call_depends_only_on_cursor_id testEnv dbEmpty
    { arg_cursor_id := some "cursor_0" }
    { arg_cursor_id := some "cursor_0",
      bind_vars := [("ws_ids", JVal.jintList [42]), ("x", JVal.jint 1)] }
    "cursor_0" [] [] 100 100 rfl rfl rfl rfl rfl rfl rfl rfl rfl rfl

/-- C5: once a cursor request has returned a page with `has_more = false`
(and a null cursor id), a subsequent request for the same cursor id against
the resulting database state fails with the cursor-not-found error carrying
the upstream detail "cursor not found" — it is not a success and not a
crash. -/
theorem run_query_exhausted_cursor_not_resolvable (env : Env) (db : DbState)
    (r1 r2 : Request) (c : String) (page : ResultPage)
    (ids1 ids2 : List Int) (bs1 bs2 : Int)
    (h1q : r1.body_query = none) (h1v : r1.arg_view = none)
    (h1c : r1.arg_cursor_id = some c)
    (hws1 : get_workspace_ids env.auth r1.auth_token = Except.ok ids1)
    (hbs1 : parseBatchSize r1.arg_batch_size = some bs1)
    (hout : (run_query env db r1).outcome = Outcome.success page)
    (hmore : page.has_more = false)
    (_hcur : page.cursor_id = none)
    (h2q : r2.body_query = none) (h2v : r2.arg_view = none)
    (h2c : r2.arg_cursor_id = some c)
    (hws2 : get_workspace_ids env.auth r2.auth_token = Except.ok ids2)
    (hbs2 : parseBatchSize r2.arg_batch_size = some bs2) :
    (run_query env (run_query env db r1).db r2).outcome =
      Outcome.cursorNotFound "cursor not found" := by
  rw [run_query_eq env db r1 ids1 bs1 hws1 hbs1] at hout ⊢
  unfold dispatch at hout ⊢
  simp only [h1q, h1v, h1c] at hout ⊢
  cases hadv : advance_cursor db c with
  | error m =>
      rw [hadv] at hout
      simp at hout
  | ok pr =>
      rw [hadv] at hout
      have hp : pr.1 = page := by simpa using hout
      have hnone : lookupKey pr.2.cursors c = none := by
        refine advance_cursor_exhausted db c pr.1 pr.2 ?_ ?_
        · rw [hadv]
        · rw [hp]; exact hmore
      show (run_query env pr.2 r2).outcome = Outcome.cursorNotFound "cursor not found"
      rw [run_query_eq env pr.2 r2 ids2 bs2 hws2 hbs2]
      unfold dispatch
      simp only [h2q, h2v, h2c]
      have hadv2 : advance_cursor pr.2 c = Except.error "cursor not found" := by
        unfold advance_cursor
        rw [hnone]
      rw [hadv2]

/-- C5 witness: a database holding one nearly-exhausted cursor "cur" returns
its final page with `has_more = false`, after which the same cursor id fails
with "cursor not found". -/
theorem run_query_exhausted_cursor_not_resolvable_witness :
    (run_query testEnv ⟨[("cur", ⟨[5], 3, 10⟩)], 1⟩
        { arg_cursor_id := some "cur" }).outcome =
      Outcome.success ⟨[5], 3, false, none⟩ ∧
    (run_query testEnv
        (run_query testEnv ⟨[("cur", ⟨[5], 3, 10⟩)], 1⟩
          { arg_cursor_id := some "cur" }).db
        { arg_cursor_id := some "cur" }).outcome =
      Outcome.cursorNotFound "cursor not found" :=
  ⟨rfl,
   run_query_exhausted_cursor_not_resolvable testEnv ⟨[("cur", ⟨[5], 3, 10⟩)], 1⟩
     { arg_cursor_id := some "cur" } { arg_cursor_id := some "cur" }
     "cur" ⟨[5], 3, false, none⟩ [] [] 100 100
     rfl rfl rfl rfl rfl rfl rfl rfl rfl rfl rfl rfl rfl⟩

end RelEngine
